import Mathlib

/-
Verification of the user-registration route handler
(src/app/api/auth/register/route.ts) of the whorespond repository.

The handler is a single linear validate / check / hash / insert sequence
with early exits and a catch branch that classifies thrown errors by
runtime name, message text and constructor name.  We embed it as a pure
function over an explicit world that records the outcome of each
effectful call (JSON body parsing, the Prisma findUnique read, the
bcrypt hash, the Prisma create write) together with the current contents
of the user table, and we count the store reads and writes the handler
performs.
-/

namespace Register

/-- A row of the Prisma `user` table: the fields the handler writes
(`name`, `email`, `hashedPassword`). -/
structure Account where
  name : String
  email : String
  hashedPassword : String
deriving Repr, DecidableEq

/-- The Identity Store modelled as the list of existing accounts. -/
abbrev Store := List Account

/-- An HTTP response produced by `NextResponse.json`: a status code and
the `message` field of the JSON body. -/
structure Response where
  status : Nat
  message : String
deriving Repr, DecidableEq

/-- A JavaScript error value as inspected by the catch branch:
`error.name`, `error.message` (possibly undefined, hence `Option`) and
`error.constructor.name`. -/
structure JsError where
  name : String
  message : Option String
  ctorName : String
deriving Repr, DecidableEq

/-- Outcome of `await req.json()` followed by destructuring
`{ name, email, password }`: either the parse throws, or it yields the
three fields, each possibly undefined. -/
inductive ParseResult where
  | failed (e : JsError)
  | ok (name email password : Option String)
deriving Repr, DecidableEq

/-- The outcomes of the effectful calls the handler makes, fixed up
front: the parse result, and for each store or hash call, the error it
throws, if any. -/
structure World where
  parse : ParseResult
  findErr : Option JsError
  hashErr : Option JsError
  createErr : Option JsError
deriving Repr, DecidableEq

/-- Result of one handler invocation: the response, the store contents
afterwards, and how many Identity Store reads and writes were issued. -/
structure HandlerResult where
  resp : Response
  store : Store
  reads : Nat
  writes : Nat
deriving Repr, DecidableEq

/-- JavaScript truthiness of a possibly-undefined string field, as
tested by `if (!name || !email || !password)`: undefined and the empty
string are falsy. -/
def present : Option String → Bool
  | none => false
  | some s => s != ""

/-- The string value of a field known to be present (undefined would
read back as empty, but `present` rules that out on every path that
uses this). -/
def getStr : Option String → String
  | none => ""
  | some s => s

/-- Character-list prefix test, the computational core of the JavaScript
string methods modelled below. -/
def listIsPre : List Char → List Char → Bool
  | [], _ => true
  | _ :: _, [] => false
  | c :: cs, d :: ds => c == d && listIsPre cs ds

/-- Character-list substring test: does the second list contain the
first as a contiguous run. -/
def listContainsSub (sub : List Char) : List Char → Bool
  | [] => listIsPre sub []
  | c :: rest => listIsPre sub (c :: rest) || listContainsSub sub rest

/-- JavaScript `s.startsWith(pre)`. -/
def strStartsWith (s pre : String) : Bool := listIsPre pre.data s.data

/-- JavaScript `s.includes(sub)`. -/
def strIncludes (s sub : String) : Bool := listContainsSub sub.data s.data

/-- JavaScript `s.toLowerCase()`, restricted to the ASCII lowering that
`Char.toLower` performs. -/
def strToLower (s : String) : String := String.mk (s.data.map Char.toLower)

/-- `error.message && error.message.includes("DATABASE_URL")`: false
when the message is undefined, otherwise a substring test. -/
def msgIncludesDbUrl : Option String → Bool
  | none => false
  | some s => strIncludes s "DATABASE_URL"

/-- 201 success response of the handler. -/
def respCreated : Response := ⟨201, "User registered successfully"⟩

/-- 400 validation response of the handler. -/
def respValidation : Response := ⟨400, "All fields are required"⟩

/-- 409 duplicate-email response of the handler. -/
def respConflict : Response := ⟨409, "User with this email already exists"⟩

/-- 500 response for a Prisma initialization or DATABASE_URL failure. -/
def respConfigError : Response :=
  ⟨500, "Server configuration error: Database connection failed. Please contact support."⟩

/-- 500 response for other PrismaClient-class errors. -/
def respDbError : Response :=
  ⟨500, "A database error occurred during registration."⟩

/-- 500 generic fallback response. -/
def respUnexpected : Response :=
  ⟨500, "An unexpected error occurred. Please try again later."⟩

/-- The catch branch of the handler (route.ts lines 33-48): classify the
caught error by `error.name`, `error.message` and
`error.constructor.name` and pick one of the three 500 responses. -/
def classifyError (e : JsError) : Response :=
  if e.name == "PrismaClientInitializationError" || msgIncludesDbUrl e.message then
    respConfigError
  else if strStartsWith e.ctorName "PrismaClient" then
    respDbError
  else
    respUnexpected

/-- `prisma.user.findUnique({ where: { email } })`: the first account
whose email equals the given one, by exact string equality. -/
def findUnique (store : Store) (email : String) : Option Account :=
  store.find? (fun a => a.email == email)

/-- Number of accounts in the store holding exactly the given email. -/
def emailCount (store : Store) (e : String) : Nat :=
  (store.filter (fun a => a.email == e)).length

/-- Number of accounts whose email equals the given one up to letter
case. -/
def emailCountCI (store : Store) (e : String) : Nat :=
  (store.filter (fun a => strToLower a.email == strToLower e)).length

/-- The POST handler of src/app/api/auth/register/route.ts, embedded
over a world of effect outcomes and the current store.  `hash` stands
for `bcrypt.hash`, applied at work factor 10. -/
def POST (hash : String → Nat → String) (w : World) (store : Store) : HandlerResult :=
  match w.parse with
  | ParseResult.failed e => ⟨classifyError e, store, 0, 0⟩
  | ParseResult.ok name email password =>
    if present name && present email && present password then
      match w.findErr with
      | some e => ⟨classifyError e, store, 1, 0⟩
      | none =>
        match findUnique store (getStr email) with
        | some _ => ⟨respConflict, store, 1, 0⟩
        | none =>
          match w.hashErr with
          | some e => ⟨classifyError e, store, 1, 0⟩
          | none =>
            match w.createErr with
            | some e => ⟨classifyError e, store, 1, 1⟩
            | none =>
              ⟨respCreated,
               store ++ [⟨getStr name, getStr email, hash (getStr password) 10⟩],
               1, 1⟩
    else
      ⟨respValidation, store, 0, 0⟩

end Register

namespace Register

lemma emailCount_append_single (s : Store) (a : Account) (e : String) :
    emailCount (s ++ [a]) e = emailCount s e + (if a.email == e then 1 else 0) := by
  simp only [emailCount, List.filter_append]
  cases h : a.email == e <;> simp [h, List.filter]

lemma emailCount_eq_zero_of_findUnique_none (s : Store) (e : String)
    (h : findUnique s e = none) : emailCount s e = 0 := by
  simp only [findUnique, List.find?_eq_none] at h
  simp only [emailCount, List.length_eq_zero, List.filter_eq_nil_iff]
  exact h

lemma findUnique_ne_none_of_emailCount_pos (s : Store) (e : String)
    (h : 0 < emailCount s e) : findUnique s e ≠ none := by
  intro hn
  rw [emailCount_eq_zero_of_findUnique_none s e hn] at h
  exact Nat.lt_irrefl 0 h

lemma present_some {s : String} (h : s ≠ "") : present (some s) = true := by
  simp [present, h]

lemma classifyError_mem (e : JsError) :
    classifyError e = respConfigError ∨ classifyError e = respDbError ∨
    classifyError e = respUnexpected := by
  unfold classifyError
  split
  · exact Or.inl rfl
  · split
    · exact Or.inr (Or.inl rfl)
    · exact Or.inr (Or.inr rfl)

end Register

namespace Register

lemma emailCount_POST_le (hash : String → Nat → String) (w : World) (s : Store)
    (e : String) (h : emailCount s e ≤ 1) : emailCount (POST hash w s).store e ≤ 1 := by
  obtain ⟨pr, fe, he, ce⟩ := w
  cases pr with
  | failed err => simpa [POST] using h
  | ok n em p =>
    by_cases hp : (present n && present em && present p) = true
    · cases fe with
      | some err => simpa [POST, hp] using h
      | none =>
        cases hfu : findUnique s (getStr em) with
        | some u => simpa [POST, hp, hfu] using h
        | none =>
          cases he with
          | some err => simpa [POST, hp, hfu] using h
          | none =>
            cases ce with
            | some err => simpa [POST, hp, hfu] using h
            | none =>
              simp only [POST, hp, hfu, if_true]
              rw [emailCount_append_single]
              by_cases heq : getStr em = e
              · have h0 : emailCount s e = 0 := by
                  rw [← heq]
                  exact emailCount_eq_zero_of_findUnique_none s _ hfu
                simp [h0, heq]
              · have : ((Account.mk (getStr n) (getStr em) (hash (getStr p) 10)).email == e) = false := by
                  simpa using heq
                simpa [this] using h
    · simpa [POST, hp] using h

/-- C1: for a request whose name, email and password are all present and
non-empty, whose email matches no existing Account, and along which no
effectful call fails, the handler responds 201 with message
"User registered successfully", exactly one Account with that email
exists afterwards, and the handler performed exactly one Identity Store
read and exactly one write. -/
theorem register_success_creates_unique_account
    (hash : String → Nat → String) (w : World) (store : Store)
    (n e p : String)
    (hparse : w.parse = ParseResult.ok (some n) (some e) (some p))
    (hn : n ≠ "") (he : e ≠ "") (hp : p ≠ "")
    (hfind : findUnique store e = none)
    (hfe : w.findErr = none) (hhe : w.hashErr = none) (hce : w.createErr = none) :
    (POST hash w store).resp = respCreated ∧
    emailCount (POST hash w store).store e = 1 ∧
    (POST hash w store).reads = 1 ∧ (POST hash w store).writes = 1 := by
  have hres : POST hash w store =
      ⟨respCreated, store ++ [⟨n, e, hash p 10⟩], 1, 1⟩ := by
    simp [POST, hparse, hfe, hhe, hce, present_some hn, present_some he,
      present_some hp, getStr, hfind]
  rw [hres]
  refine ⟨rfl, ?_, rfl, rfl⟩
  rw [emailCount_append_single]
  simp [emailCount_eq_zero_of_findUnique_none store e hfind]

/-- Concrete adaptive hash used in witnesses. -/
def demoHash (p : String) (_cost : Nat) : String := String.append "h" p

/-- World of a well-formed registration request with no injected
failures. -/
def okWorld : World :=
  ⟨ParseResult.ok (some "Sam") (some "sam@x.com") (some "pw123456"), none, none, none⟩

/-- Witness for C1 at a concrete request and empty store. -/
theorem register_success_creates_unique_account_witness :
    (POST demoHash okWorld []).resp = respCreated ∧
    emailCount (POST demoHash okWorld []).store "sam@x.com" = 1 ∧
    (POST demoHash okWorld []).reads = 1 ∧ (POST demoHash okWorld []).writes = 1 :=
  register_success_creates_unique_account demoHash okWorld [] "Sam" "sam@x.com" "pw123456"
    rfl (by decide) (by decide) (by decide) rfl rfl rfl rfl

end Register

namespace Register

/-- C2: the per-email uniqueness invariant is preserved by every
invocation of the handler, and in a state already holding exactly one
Account with email e, a registration request for e is answered 409 with
message "User with this email already exists", the store is unchanged,
and the Account count for e remains 1. -/
theorem duplicate_email_conflict
    (hash : String → Nat → String) (w : World) (store : Store)
    (n e p : String)
    (hparse : w.parse = ParseResult.ok (some n) (some e) (some p))
    (hn : n ≠ "") (he : e ≠ "") (hp : p ≠ "")
    (hfe : w.findErr = none)
    (hcount : emailCount store e = 1) :
    (POST hash w store).resp = respConflict ∧
    (POST hash w store).store = store ∧
    emailCount (POST hash w store).store e = 1 ∧
    (∀ (hash2 : String → Nat → String) (w2 : World) (s2 : Store) (e2 : String),
      emailCount s2 e2 ≤ 1 → emailCount (POST hash2 w2 s2).store e2 ≤ 1) := by
  have hfind : ∃ u, findUnique store e = some u := by
    cases hfu : findUnique store e with
    | none =>
      exact absurd hfu (findUnique_ne_none_of_emailCount_pos store e (hcount ▸ Nat.zero_lt_one))
    | some u => exact ⟨u, rfl⟩
  obtain ⟨u, hu⟩ := hfind
  have hres : POST hash w store = ⟨respConflict, store, 1, 0⟩ := by
    simp [POST, hparse, hfe, present_some hn, present_some he, present_some hp, getStr, hu]
  rw [hres]
  exact ⟨rfl, rfl, hcount, fun h2 w2 s2 e2 hle => emailCount_POST_le h2 w2 s2 e2 hle⟩

/-- World of a repeat registration request for sam, no injected
failures. -/
def dupWorld : World :=
  ⟨ParseResult.ok (some "Sam") (some "sam@x.com") (some "pw123456"), none, none, none⟩

/-- A store already holding the account for sam. -/
def samStore : Store := [⟨"Sam", "sam@x.com", "hpw123456"⟩]

/-- Witness for C2 at a concrete request against a store already
holding an account with that email. -/
theorem duplicate_email_conflict_witness :
    (POST demoHash dupWorld samStore).resp = respConflict ∧
    (POST demoHash dupWorld samStore).store = samStore ∧
    emailCount (POST demoHash dupWorld samStore).store "sam@x.com" = 1 ∧
    (∀ (hash2 : String → Nat → String) (w2 : World) (s2 : Store) (e2 : String),
      emailCount s2 e2 ≤ 1 → emailCount (POST hash2 w2 s2).store e2 ≤ 1) :=
  duplicate_email_conflict demoHash dupWorld samStore "Sam" "sam@x.com" "pw123456"
    rfl (by decide) (by decide) (by decide) rfl (by decide)

/-- C3: a request with any of the three fields missing or empty is
answered 400 with message "All fields are required", with no Identity
Store read or write and the store unchanged. -/
theorem missing_field_validation
    (hash : String → Nat → String) (w : World) (store : Store)
    (name email password : Option String)
    (hparse : w.parse = ParseResult.ok name email password)
    (hmiss : (present name && present email && present password) = false) :
    (POST hash w store).resp = respValidation ∧
    (POST hash w store).store = store ∧
    (POST hash w store).reads = 0 ∧ (POST hash w store).writes = 0 := by
  simp [POST, hparse, hmiss]

/-- World of a request whose name field is the empty string. -/
def emptyNameWorld : World :=
  ⟨ParseResult.ok (some "") (some "sam@x.com") (some "pw123456"), none, none, none⟩

/-- Witness for C3 at a concrete request with an empty name. -/
theorem missing_field_validation_witness :
    (POST demoHash emptyNameWorld samStore).resp = respValidation ∧
    (POST demoHash emptyNameWorld samStore).store = samStore ∧
    (POST demoHash emptyNameWorld samStore).reads = 0 ∧
    (POST demoHash emptyNameWorld samStore).writes = 0 :=
  missing_field_validation demoHash emptyNameWorld samStore
    (some "") (some "sam@x.com") (some "pw123456") rfl (by decide)

end Register

namespace Register

/-- C6: when the Identity Store is unreachable or misconfigured — the
existence check throws an error named PrismaClientInitializationError or
whose message mentions DATABASE_URL — the handler answers 500 with
exactly the configuration-error body, the store is unchanged and no
Account is created. -/
theorem store_unreachable_config_error
    (hash : String → Nat → String) (w : World) (store : Store)
    (n e p : String) (err : JsError)
    (hparse : w.parse = ParseResult.ok (some n) (some e) (some p))
    (hn : n ≠ "") (he : e ≠ "") (hp : p ≠ "")
    (hfe : w.findErr = some err)
    (herr : err.name = "PrismaClientInitializationError" ∨
      msgIncludesDbUrl err.message = true) :
    (POST hash w store).resp = respConfigError ∧
    (POST hash w store).store = store ∧
    (POST hash w store).writes = 0 := by
  have hcls : classifyError err = respConfigError := by
    unfold classifyError
    rcases herr with h | h
    · simp [h]
    · simp [h]
  simp [POST, hparse, hfe, present_some hn, present_some he, present_some hp, hcls]

/-- A Prisma initialization failure as thrown when the store is
unreachable. -/
def initError : JsError :=
  ⟨"PrismaClientInitializationError", some "Can not reach database server",
   "PrismaClientInitializationError"⟩

/-- World of a valid request whose existence check throws the
initialization error. -/
def downWorld : World :=
  ⟨ParseResult.ok (some "Sam") (some "sam@x.com") (some "pw123456"),
   some initError, none, none⟩

/-- Witness for C6 at a concrete request against an unreachable store. -/
theorem store_unreachable_config_error_witness :
    (POST demoHash downWorld []).resp = respConfigError ∧
    (POST demoHash downWorld []).store = [] ∧
    (POST demoHash downWorld []).writes = 0 :=
  store_unreachable_config_error demoHash downWorld [] "Sam" "sam@x.com" "pw123456" initError
    rfl (by decide) (by decide) (by decide) rfl (Or.inl rfl)

/-- C7: the handler is total over every world and store: it always
returns one of the six enumerated responses (201 created, 400
validation, 409 conflict, or one of the three fixed 500 bodies), so no
error propagates to the caller and the body never carries diagnostic
detail beyond these fixed strings. -/
theorem handler_response_enumerated
    (hash : String → Nat → String) (w : World) (store : Store) :
    (POST hash w store).resp = respCreated ∨
    (POST hash w store).resp = respValidation ∨
    (POST hash w store).resp = respConflict ∨
    (POST hash w store).resp = respConfigError ∨
    (POST hash w store).resp = respDbError ∨
    (POST hash w store).resp = respUnexpected := by
  obtain ⟨pr, fe, he, ce⟩ := w
  cases pr with
  | failed err =>
    have h := classifyError_mem err
    simp only [POST]
    tauto
  | ok n em p =>
    by_cases hp : (present n && present em && present p) = true
    · cases fe with
      | some err =>
        have h := classifyError_mem err
        simp only [POST, hp, if_true]
        tauto
      | none =>
        cases hfu : findUnique store (getStr em) with
        | some u => simp [POST, hp, hfu]
        | none =>
          cases he with
          | some err =>
            have h := classifyError_mem err
            simp only [POST, hp, hfu, if_true]
            tauto
          | none =>
            cases ce with
            | some err =>
              have h := classifyError_mem err
              simp only [POST, hp, hfu, if_true]
              tauto
            | none => simp [POST, hp, hfu]
    · simp [POST, hp]

end Register

namespace Register

/-- C8: a request whose body fails to parse as JSON throws before
validation, so the catch branch answers with the generic 500 body — not
the 400 validation response — and no Account is created.  The
hypotheses state that the thrown error is a plain JSON SyntaxError: not
named after the Prisma initialization error, no DATABASE_URL text, and
a constructor name outside the PrismaClient family. -/
theorem malformed_json_generic_500
    (hash : String → Nat → String) (w : World) (store : Store) (err : JsError)
    (hparse : w.parse = ParseResult.failed err)
    (hname : err.name ≠ "PrismaClientInitializationError")
    (hmsg : msgIncludesDbUrl err.message = false)
    (hctor : strStartsWith err.ctorName "PrismaClient" = false) :
    (POST hash w store).resp = respUnexpected ∧
    (POST hash w store).resp ≠ respValidation ∧
    (POST hash w store).store = store ∧
    (POST hash w store).reads = 0 ∧ (POST hash w store).writes = 0 := by
  have h1 : (err.name == "PrismaClientInitializationError") = false := by
    simp [hname]
  have hcls : classifyError err = respUnexpected := by
    simp [classifyError, h1, hmsg, hctor]
  refine ⟨?_, ?_, ?_, ?_, ?_⟩ <;>
    simp [POST, hparse, hcls, respUnexpected, respValidation]

/-- The error thrown by `req.json()` on a malformed body. -/
def syntaxError : JsError :=
  ⟨"SyntaxError", some "Unexpected token x in JSON at position 0", "SyntaxError"⟩

/-- World of a request whose body is not parseable as JSON. -/
def badJsonWorld : World := ⟨ParseResult.failed syntaxError, none, none, none⟩

/-- Witness for C8 at a concrete malformed-body request. -/
theorem malformed_json_generic_500_witness :
    (POST demoHash badJsonWorld samStore).resp = respUnexpected ∧
    (POST demoHash badJsonWorld samStore).resp ≠ respValidation ∧
    (POST demoHash badJsonWorld samStore).store = samStore ∧
    (POST demoHash badJsonWorld samStore).reads = 0 ∧
    (POST demoHash badJsonWorld samStore).writes = 0 :=
  malformed_json_generic_500 demoHash badJsonWorld samStore syntaxError
    rfl (by decide) (by decide) (by decide)

/-- C10: the catch branch classifies a caught error purely by its
runtime name, message text and constructor name: name
PrismaClientInitializationError or a message mentioning DATABASE_URL
gives the configuration-error 500; otherwise a constructor name in the
PrismaClient family gives the database-error 500; every remaining error
gives the generic 500.  The classification is applied to whatever the
try block throws, wherever it arose: a parse failure reaches the same
classifier. -/
theorem catch_error_classification (e : JsError) :
    ((e.name = "PrismaClientInitializationError" ∨ msgIncludesDbUrl e.message = true) →
      classifyError e = respConfigError) ∧
    ((e.name ≠ "PrismaClientInitializationError" ∧ msgIncludesDbUrl e.message = false ∧
      strStartsWith e.ctorName "PrismaClient" = true) →
      classifyError e = respDbError) ∧
    ((e.name ≠ "PrismaClientInitializationError" ∧ msgIncludesDbUrl e.message = false ∧
      strStartsWith e.ctorName "PrismaClient" = false) →
      classifyError e = respUnexpected) ∧
    (∀ (hash : String → Nat → String) (w : World) (store : Store),
      w.parse = ParseResult.failed e → (POST hash w store).resp = classifyError e) := by
  refine ⟨?_, ?_, ?_, ?_⟩
  · rintro (h | h) <;> simp [classifyError, h]
  · rintro ⟨h1, h2, h3⟩
    have h1f : (e.name == "PrismaClientInitializationError") = false := by simp [h1]
    simp [classifyError, h1f, h2, h3]
  · rintro ⟨h1, h2, h3⟩
    have h1f : (e.name == "PrismaClientInitializationError") = false := by simp [h1]
    simp [classifyError, h1f, h2, h3]
  · intro hash w store hparse
    simp [POST, hparse]

/-- Witness for C10: a non-store error carrying DATABASE_URL in its
message is routed to the configuration-error 500. -/
theorem catch_error_classification_witness :
    classifyError ⟨"Error", some "env DATABASE_URL is missing", "Error"⟩ = respConfigError :=
  (catch_error_classification ⟨"Error", some "env DATABASE_URL is missing", "Error"⟩).1
    (Or.inr (by decide))

end Register

namespace Register

/-- The error Prisma throws when the insert violates the unique
constraint on email: a PrismaClientKnownRequestError (code P2002). -/
def uniqueViolation : JsError :=
  ⟨"PrismaClientKnownRequestError",
   some "Unique constraint failed on the fields: (email)",
   "PrismaClientKnownRequestError"⟩

/-- World of a valid request that passes the existence check but whose
insert is rejected by the store uniqueness constraint (the
check-then-act race lost). -/
def raceWorld : World :=
  ⟨ParseResult.ok (some "Sam") (some "sam@x.com") (some "pw123456"),
   none, none, some uniqueViolation⟩

/-- C4 counterexample: when the insert is rejected by the store
uniqueness constraint, the handler answers 500 with the database-error
body, not the 409 conflict response the claim asserts. -/
theorem store_conflict_counterexample :
    (POST demoHash raceWorld []).resp = respDbError ∧
    (POST demoHash raceWorld []).resp.status = 500 ∧
    (POST demoHash raceWorld []).resp ≠ respConflict := by
  refine ⟨by decide, by decide, by decide⟩

/-- C4 amended: when the Identity Store rejects the insert with a
uniqueness-conflict error — a PrismaClient-class error that is neither
the initialization error nor one mentioning DATABASE_URL — the handler
reports it through the generic Prisma branch as a 500 with body
"A database error occurred during registration.", not as the 409
conflict branch, and the store is unchanged. -/
theorem store_conflict_reported_as_db_error
    (hash : String → Nat → String) (w : World) (store : Store)
    (n e p : String) (err : JsError)
    (hparse : w.parse = ParseResult.ok (some n) (some e) (some p))
    (hn : n ≠ "") (he : e ≠ "") (hp : p ≠ "")
    (hfind : findUnique store e = none)
    (hfe : w.findErr = none) (hhe : w.hashErr = none)
    (hce : w.createErr = some err)
    (hname : err.name ≠ "PrismaClientInitializationError")
    (hmsg : msgIncludesDbUrl err.message = false)
    (hctor : strStartsWith err.ctorName "PrismaClient" = true) :
    (POST hash w store).resp = respDbError ∧
    (POST hash w store).resp ≠ respConflict ∧
    (POST hash w store).store = store := by
  have h1 : (err.name == "PrismaClientInitializationError") = false := by simp [hname]
  have hcls : classifyError err = respDbError := by
    simp [classifyError, h1, hmsg, hctor]
  refine ⟨?_, ?_, ?_⟩ <;>
    simp [POST, hparse, hfe, hhe, hce, present_some hn, present_some he,
      present_some hp, getStr, hfind, hcls, respDbError, respConflict]

/-- Witness for the amended C4 at the concrete lost-race world. -/
theorem store_conflict_reported_as_db_error_witness :
    (POST demoHash raceWorld []).resp = respDbError ∧
    (POST demoHash raceWorld []).resp ≠ respConflict ∧
    (POST demoHash raceWorld []).store = [] :=
  store_conflict_reported_as_db_error demoHash raceWorld [] "Sam" "sam@x.com" "pw123456"
    uniqueViolation rfl (by decide) (by decide) (by decide) rfl rfl rfl rfl
    (by decide) (by decide) (by decide)

/-- World of a valid registration whose submitted name is the same
string as the submitted password. -/
def pwNameWorld : World :=
  ⟨ParseResult.ok (some "pw123456") (some "sam@x.com") (some "pw123456"),
   none, none, none⟩

/-- C5 counterexample: a successful registration (the password
submitted is "pw123456") whose stored record carries the plaintext
password in its name field, because the name field was submitted as the
same string and is stored verbatim.  So the stored record does contain
the plaintext password in a field. -/
theorem plaintext_in_stored_field_counterexample :
    (POST demoHash pwNameWorld []).resp = respCreated ∧
    ((POST demoHash pwNameWorld []).store.any (fun a => a.name == "pw123456")) = true := by
  refine ⟨by decide, by decide⟩

/-- C5 amended: for every successful registration the stored record is
the old store extended with one account whose hashedPassword field is
exactly the adaptive hash of the plaintext password at work factor 10;
provided the hash never returns its input on this password, that field
is not the plaintext.  Fields stored verbatim from the request
(name, email) can still coincide with the password when the client
submitted the same string there. -/
theorem stored_hash_derived_from_password
    (hash : String → Nat → String) (w : World) (store : Store)
    (n e p : String)
    (hparse : w.parse = ParseResult.ok (some n) (some e) (some p))
    (hn : n ≠ "") (he : e ≠ "") (hp : p ≠ "")
    (hfind : findUnique store e = none)
    (hfe : w.findErr = none) (hhe : w.hashErr = none) (hce : w.createErr = none)
    (hneq : hash p 10 ≠ p) :
    (POST hash w store).store = store ++ [Account.mk n e (hash p 10)] ∧
    (Account.mk n e (hash p 10)).hashedPassword = hash p 10 ∧
    (Account.mk n e (hash p 10)).hashedPassword ≠ p := by
  refine ⟨?_, rfl, hneq⟩
  simp [POST, hparse, hfe, hhe, hce, present_some hn, present_some he,
    present_some hp, getStr, hfind]

/-- Witness for the amended C5 at a concrete request and hash. -/
theorem stored_hash_derived_from_password_witness :
    (POST demoHash okWorld []).store =
      [] ++ [Account.mk "Sam" "sam@x.com" (demoHash "pw123456" 10)] ∧
    (Account.mk "Sam" "sam@x.com" (demoHash "pw123456" 10)).hashedPassword =
      demoHash "pw123456" 10 ∧
    (Account.mk "Sam" "sam@x.com" (demoHash "pw123456" 10)).hashedPassword ≠ "pw123456" :=
  stored_hash_derived_from_password demoHash okWorld [] "Sam" "sam@x.com" "pw123456"
    rfl (by decide) (by decide) (by decide) rfl rfl rfl rfl (by decide)

end Register

namespace Register

lemma emailCountCI_append_single (s : Store) (a : Account) (e : String) :
    emailCountCI (s ++ [a]) e =
      emailCountCI s e + (if strToLower a.email == strToLower e then 1 else 0) := by
  simp only [emailCountCI, List.filter_append]
  cases h : strToLower a.email == strToLower e <;> simp [h, List.filter]

lemma one_le_emailCountCI_of_mem (s : Store) (a : Account) (e : String)
    (ha : a ∈ s) (hci : strToLower a.email = strToLower e) :
    1 ≤ emailCountCI s e := by
  have hmem : a ∈ s.filter (fun x => strToLower x.email == strToLower e) :=
    List.mem_filter.mpr ⟨ha, by simp [hci]⟩
  have hne := List.ne_nil_of_mem hmem
  simpa [emailCountCI] using List.length_pos.mpr hne

/-- C9: the existence check compares emails by exact, case-sensitive
string equality.  An existing Account whose email differs from the
requested one only in letter case does not match the lookup, so with no
exact match present and no store failure the request succeeds with 201
and a second Account whose email is case-insensitively the same ends up
in the store. -/
theorem email_check_case_sensitive
    (hash : String → Nat → String) (w : World) (store : Store)
    (n e2 p : String) (a : Account)
    (ha : a ∈ store) (hane : a.email ≠ e2)
    (hci : strToLower a.email = strToLower e2)
    (hparse : w.parse = ParseResult.ok (some n) (some e2) (some p))
    (hn : n ≠ "") (he : e2 ≠ "") (hp : p ≠ "")
    (hfind : findUnique store e2 = none)
    (hfe : w.findErr = none) (hhe : w.hashErr = none) (hce : w.createErr = none) :
    ((a.email == e2) = false) ∧
    (POST hash w store).resp = respCreated ∧
    2 ≤ emailCountCI (POST hash w store).store e2 := by
  have hstore : (POST hash w store).store = store ++ [Account.mk n e2 (hash p 10)] := by
    simp [POST, hparse, hfe, hhe, hce, present_some hn, present_some he,
      present_some hp, getStr, hfind]
  refine ⟨by simp [hane], ?_, ?_⟩
  · simp [POST, hparse, hfe, hhe, hce, present_some hn, present_some he,
      present_some hp, getStr, hfind]
  · rw [hstore, emailCountCI_append_single]
    have h1 : 1 ≤ emailCountCI store e2 := one_le_emailCountCI_of_mem store a e2 ha hci
    have h2 : (strToLower (Account.mk n e2 (hash p 10)).email == strToLower e2) = true := by
      simp
    simp only [h2, if_true]
    omega

/-- World of a registration request whose email is an upper-cased
variant of the one already stored for sam. -/
def caseWorld : World :=
  ⟨ParseResult.ok (some "Sam") (some "Sam@x.com") (some "pw123456"), none, none, none⟩

/-- Witness for C9: against a store holding sam@x.com, the request for
Sam@x.com passes the check and creates a second account. -/
theorem email_check_case_sensitive_witness :
    (((samStore.get ⟨0, by decide⟩).email == "Sam@x.com") = false) ∧
    (POST demoHash caseWorld samStore).resp = respCreated ∧
    2 ≤ emailCountCI (POST demoHash caseWorld samStore).store "Sam@x.com" :=
  email_check_case_sensitive demoHash caseWorld samStore "Sam" "Sam@x.com" "pw123456"
    (samStore.get ⟨0, by decide⟩) (by decide) (by decide) (by decide)
    rfl (by decide) (by decide) (by decide) (by decide) rfl rfl rfl

end Register
